import Mathlib

/-!
Shallow embedding of the dual-retrieval GraphRAG comparison app,
translated from src/app/graphrag_core.py and src/app/gradio_ui.py.

The graph side embeds the Cypher retrieval query of
GraphRAGApp.setup_retrievers (lines 75 to 88 of graphrag_core.py):

  WITH node AS chunk
  MATCH (chunk)<-[:FROM_CHUNK]-()-[relList:!FROM_CHUNK]-\x7b1,2\x7d()
  UNWIND relList AS rel
  WITH collect(DISTINCT chunk) AS chunks, collect(DISTINCT rel) AS rels
  RETURN header-and-join formatting AS info

Cypher semantics followed here: the quantified relationship pattern
matches undirected paths of one or two relationships whose type is not
FROM_CHUNK, with all relationships of one pattern match pairwise
distinct; a seed row whose MATCH finds nothing is dropped; UNWIND turns
each matched path into one row per relationship of the path; collect
with DISTINCT keeps first occurrences in row order; aggregation over
zero rows still returns one row, with empty lists.
-/

namespace GraphRAG

/-- A directed, typed relationship between two nodes, optionally carrying
free-text details (the property `r.details` of the Cypher query). `rid`
is the store identity that Cypher DISTINCT compares. -/
structure Rel where
  rid : Nat
  src : Nat
  dst : Nat
  relType : String
  details : Option String
  deriving DecidableEq

/-- A stored graph node: a Chunk (carries `text`) or an Entity (carries
`name`); the unused field is the empty string. -/
structure Node where
  nid : Nat
  name : String
  text : String
  deriving DecidableEq

/-- The Context Store content: nodes plus all relationships, the
FROM_CHUNK linkage edges included. -/
structure Graph where
  nodes : List Node
  rels : List Rel
  deriving DecidableEq

/-- The type test `:FROM_CHUNK` of the Cypher pattern. -/
def isFromChunk (r : Rel) : Bool := r.relType == "FROM_CHUNK"

/-- Undirected incidence, as in the undirected pattern arm `-[...]-`. -/
def touches (r : Rel) (a : Nat) : Bool := r.src == a || r.dst == a

/-- The node reached by traversing `r` undirected from `a`. -/
def otherEnd (r : Rel) (a : Nat) : Nat := if r.src == a then r.dst else r.src

/-- The relationships usable by one hop of `-[relList:!FROM_CHUNK]-`
from node `a`. -/
def nbrRels (g : Graph) (a : Nat) : List Rel :=
  g.rels.filter (fun r => !(isFromChunk r) && touches r a)

/-- The matches of `-[relList:!FROM_CHUNK]-\x7b1,2\x7d` starting at `e`, each as
its relationship list: one-hop paths, and two-hop paths whose two
relationships are distinct (Cypher relationship uniqueness). -/
def pathsFrom (g : Graph) (e : Nat) : List (List Rel) :=
  (nbrRels g e).flatMap (fun r1 =>
    [r1] :: ((nbrRels g (otherEnd r1 e)).filter (fun r2 => !(r2 == r1))).map (fun r2 => [r1, r2]))

/-- The FROM_CHUNK relationships matching `(chunk)<-[:FROM_CHUNK]-()`
for the seed chunk `c`: incoming, so `c` is the destination. -/
def linkRels (g : Graph) (c : Nat) : List Rel :=
  g.rels.filter (fun r => isFromChunk r && r.dst == c)

/-- All rows the MATCH plus UNWIND produce for one seed chunk: for every
linked node and every 1-or-2 hop path from it, every relationship of
the path. Empty when the MATCH finds nothing, dropping the seed row. -/
def rowsForChunk (g : Graph) (c : Nat) : List Rel :=
  (linkRels g c).flatMap (fun fr => (pathsFrom g fr.src).flatMap (fun p => p))

/-- All rows over the seed chunks returned by the vector search, each
tagged with its seed chunk. -/
def rows (g : Graph) (seeds : List Nat) : List (Nat × Rel) :=
  seeds.flatMap (fun c => (rowsForChunk g c).map (fun r => (c, r)))

/-- Helper for first-occurrence deduplication, carrying the elements
already emitted. -/
def dedupFirstAux {α : Type} [DecidableEq α] (seen : List α) : List α → List α
  | [] => []
  | x :: xs => if x ∈ seen then dedupFirstAux seen xs else x :: dedupFirstAux (x :: seen) xs

/-- Cypher `collect(DISTINCT x)`: keep the first occurrence of each
element, in row order. -/
def dedupFirst {α : Type} [DecidableEq α] (l : List α) : List α := dedupFirstAux [] l

/-- Cypher `collect(DISTINCT chunk)`: the distinct seed chunks that produced at
least one row. -/
def chunksCollected (g : Graph) (seeds : List Nat) : List Nat :=
  dedupFirst ((rows g seeds).map Prod.fst)

/-- Cypher `collect(DISTINCT rel)`: the distinct relationships over all rows. -/
def relsCollected (g : Graph) (seeds : List Nat) : List Rel :=
  dedupFirst ((rows g seeds).map Prod.snd)

/-- Property lookup `n.name`; a missing node yields the empty string. -/
def nodeName (g : Graph) (a : Nat) : String :=
  match g.nodes.find? (fun n => n.nid == a) with
  | some n => n.name
  | none => ""

/-- Property lookup `c.text`; a missing node yields the empty string. -/
def nodeText (g : Graph) (a : Nat) : String :=
  match g.nodes.find? (fun n => n.nid == a) with
  | some n => n.text
  | none => ""

/-- One line of the kg_rels section:
`startNode(r).name + " - " + type(r) + "(" + coalesce(r.details, "") + ")" + " -> " + endNode(r).name`. -/
def renderRel (g : Graph) (r : Rel) : String :=
  nodeName g r.src ++ " - " ++ r.relType ++ "(" ++ r.details.getD "" ++ ")" ++ " -> " ++ nodeName g r.dst

/-- The separator of `apoc.text.join(..., "\n---\n")`. -/
def sectionSep : String := "\n---\n"

/-- The single `info` string returned by Retriever B for the given seed
chunks: the text section joining the collected chunk texts, then the
kg_rels section joining the rendered collected relationships. -/
def retrieverBContext (g : Graph) (seeds : List Nat) : String :=
  "=== text ===\n" ++ String.intercalate sectionSep ((chunksCollected g seeds).map (nodeText g)) ++
  "\n\n=== kg_rels ===\n" ++ String.intercalate sectionSep ((relsCollected g seeds).map (renderRel g))

/-- The label prefix of the vector-only answer (graphrag_core.py line 141). -/
def vectorLabel (a : String) : String := "**Vector Retriever Response:**\n\n" ++ a

/-- The label prefix of the vector-plus-cypher answer (line 142). -/
def vcLabel (a : String) : String := "**Vector + Cypher Retriever Response:**\n\n" ++ a

/-- The message built by the except branch (line 147). -/
def errorMsg (e : String) : String := "Error processing query: " ++ e

/-- Translation of `GraphRAGApp.query_graphrag` (lines 124 to 148). The two pipeline
calls are modelled as oracles from (query text, top_k) to an outcome:
`Except.error e` stands for a raised exception whose string form is `e`,
`Except.ok a` for a search result whose `answer` is `a`. Both calls sit
inside one try block, tried in order; the first raise jumps to the
except branch, which returns the same message for both sides. -/
def query_graphrag (vSearch vcSearch : String → Nat → Except String String)
    (query_text : String) (top_k : Nat) : String × String :=
  match vSearch query_text top_k with
  | Except.error e => (errorMsg e, errorMsg e)
  | Except.ok vAnswer =>
    match vcSearch query_text top_k with
    | Except.error e => (errorMsg e, errorMsg e)
    | Except.ok vcAnswer => (vectorLabel vAnswer, vcLabel vcAnswer)

/-- The whitespace set of the Python `str.strip()` default. -/
def isPySpace (c : Char) : Bool :=
  c == ' ' || c == '\t' || c == '\n' || c == '\r' || c == '\x0b' || c == '\x0c'

/-- Python `query.strip()`: drop leading and trailing whitespace. -/
def pyStrip (s : String) : String :=
  ⟨((s.data.dropWhile isPySpace).reverse.dropWhile isPySpace).reverse⟩

/-- Translation of `process_query` of gradio_ui.py (lines 103 to 108): Python
`not query.strip()` is true exactly when the stripped string is empty;
only otherwise is `app.query_graphrag` (the `backend`) consulted. -/
def process_query (backend : String → Nat → String × String)
    (query : String) (top_k : Nat) : String × String :=
  if pyStrip query = "" then ("Please enter a question.", "Please enter a question.")
  else backend query top_k

/-- Python truthiness of `os.getenv` results: `None` and the empty
string are falsy, so `all([...])` holds exactly of non-empty strings. -/
def pyTruthy : Option String → Bool
  | none => false
  | some s => !(s == "")

/-- The driver parameters handed to `neo4j.GraphDatabase.driver`. -/
structure Neo4jConn where
  uri : String
  username : String
  password : String
  database : Option String
  deriving DecidableEq

/-- Translation of `GraphRAGApp.setup_neo4j_connection` (lines 21 to 35): read the four
variables, raise `ValueError` unless URI, username and password are all
truthy, and only then construct the driver. -/
def setup_neo4j_connection (env : String → Option String) : Except String Neo4jConn :=
  let uri := env "NEO4J_URI"
  let username := env "NEO4J_USERNAME"
  let password := env "NEO4J_PASSWORD"
  let database := env "NEO4J_DATABASE"
  if pyTruthy uri && pyTruthy username && pyTruthy password then
    Except.ok { uri := uri.getD "", username := username.getD "",
                password := password.getD "", database := database }
  else
    Except.error "Neo4j credentials not found in environment variables"

/-- The state `setup_models` (lines 37 to 60) leaves behind: the models
are configured unconditionally, and the try block around
`create_vector_index` turns a raise into a printed warning. -/
structure Models where
  llmModel : String
  embedderReady : Bool
  indexWarning : Option String
  deriving DecidableEq

/-- Translation of `GraphRAGApp.setup_models` (lines 37 to 60); `createIndexResult` is
the outcome of the `create_vector_index` call against the store. -/
def setup_models (createIndexResult : Except String Unit) : Models :=
  { llmModel := "gpt-4.1-mini"
    embedderReady := true
    indexWarning :=
      match createIndexResult with
      | Except.ok _ => none
      | Except.error e => some ("Vector index creation error (may already exist): " ++ e) }

/-- The application state built by `GraphRAGApp.__init__`. -/
structure App where
  conn : Neo4jConn
  models : Models
  deriving DecidableEq

/-- Translation of `GraphRAGApp.__init__` (lines 15 to 19) up to the point the claims
reach: a raise in `setup_neo4j_connection` aborts construction before
any later step runs; otherwise `setup_models` runs. -/
def appInit (env : String → Option String) (createIndexResult : Except String Unit) :
    Except String App :=
  match setup_neo4j_connection env with
  | Except.error e => Except.error e
  | Except.ok conn => Except.ok { conn := conn, models := setup_models createIndexResult }

/-- Membership in the deduplication helper: an element comes out exactly
when it is in the input and not among the already emitted ones. -/
theorem mem_dedupFirstAux {α : Type} [DecidableEq α] (seen : List α) (l : List α) (a : α) :
    a ∈ dedupFirstAux seen l ↔ a ∈ l ∧ a ∉ seen := by
  induction l generalizing seen with
  | nil => simp [dedupFirstAux]
  | cons x xs ih =>
    simp only [dedupFirstAux]
    by_cases hx : x ∈ seen
    · rw [if_pos hx, ih]
      constructor
      · rintro ⟨h1, h2⟩
        exact ⟨List.mem_cons_of_mem _ h1, h2⟩
      · rintro ⟨h1, h2⟩
        rcases List.mem_cons.mp h1 with rfl | h1
        · exact absurd hx h2
        · exact ⟨h1, h2⟩
    · rw [if_neg hx]
      simp only [List.mem_cons, ih, List.mem_cons]
      constructor
      · rintro (rfl | ⟨h1, h2⟩)
        · exact ⟨Or.inl rfl, hx⟩
        · exact ⟨Or.inr h1, fun hs => h2 (Or.inr hs)⟩
      · rintro ⟨h1 | h1, h2⟩
        · exact Or.inl h1
        · by_cases hax : a = x
          · exact Or.inl hax
          · exact Or.inr ⟨h1, fun hs => (hs.elim hax h2 : False)⟩

/-- Deduplication keeps membership unchanged. -/
theorem mem_dedupFirst {α : Type} [DecidableEq α] (l : List α) (a : α) :
    a ∈ dedupFirst l ↔ a ∈ l := by
  rw [dedupFirst, mem_dedupFirstAux]
  simp

/-- The deduplication helper never emits a duplicate. -/
theorem nodup_dedupFirstAux {α : Type} [DecidableEq α] (seen : List α) (l : List α) :
    (dedupFirstAux seen l).Nodup := by
  induction l generalizing seen with
  | nil => simp [dedupFirstAux]
  | cons x xs ih =>
    simp only [dedupFirstAux]
    by_cases hx : x ∈ seen
    · rw [if_pos hx]
      exact ih seen
    · rw [if_neg hx]
      refine List.nodup_cons.mpr ⟨?_, ih _⟩
      intro hmem
      exact ((mem_dedupFirstAux _ _ _).mp hmem).2 (List.mem_cons_self x seen)

/-- The output of deduplication has no duplicates. -/
theorem nodup_dedupFirst {α : Type} [DecidableEq α] (l : List α) :
    (dedupFirst l).Nodup :=
  nodup_dedupFirstAux [] l

/-- Unfolding of one-hop membership. -/
theorem mem_nbrRels (g : Graph) (a : Nat) (r : Rel) :
    r ∈ nbrRels g a ↔ r ∈ g.rels ∧ isFromChunk r = false ∧ touches r a = true := by
  simp [nbrRels, List.mem_filter, Bool.and_eq_true, Bool.not_eq_true', and_assoc]

/-- Unfolding of linkage membership. -/
theorem mem_linkRels (g : Graph) (c : Nat) (r : Rel) :
    r ∈ linkRels g c ↔ r ∈ g.rels ∧ isFromChunk r = true ∧ r.dst = c := by
  simp [linkRels, List.mem_filter, Bool.and_eq_true, and_assoc]

/-- A relationship appears among the unwound path rows from `e` exactly
when it is one hop from `e`, or one hop from the far end of a distinct
relationship that is itself one hop from `e`. -/
theorem mem_pathsFlatten (g : Graph) (e : Nat) (r : Rel) :
    r ∈ (pathsFrom g e).flatMap (fun p => p) ↔
      (r ∈ nbrRels g e ∨ ∃ r1 ∈ nbrRels g e, r1 ≠ r ∧ r ∈ nbrRels g (otherEnd r1 e)) := by
  rw [pathsFrom]
  constructor
  · intro h
    rw [List.mem_flatMap] at h
    obtain ⟨p, hp, hrp⟩ := h
    rw [List.mem_flatMap] at hp
    obtain ⟨r1, hr1, hp1⟩ := hp
    rcases List.mem_cons.mp hp1 with rfl | hp2
    · rcases List.mem_singleton.mp hrp with rfl
      exact Or.inl hr1
    · obtain ⟨r2, hr2, rfl⟩ := List.mem_map.mp hp2
      rw [List.mem_filter] at hr2
      obtain ⟨hr2n, hr2ne⟩ := hr2
      rcases List.mem_cons.mp hrp with rfl | hrp2
      · exact Or.inl hr1
      · rcases List.mem_singleton.mp hrp2 with rfl
        refine Or.inr ⟨r1, hr1, ?_, hr2n⟩
        intro hEq
        rw [hEq] at hr2ne
        simp at hr2ne
  · intro h
    rw [List.mem_flatMap]
    rcases h with h | ⟨r1, hr1, hne, hr⟩
    · refine ⟨[r], ?_, List.mem_singleton_self r⟩
      rw [List.mem_flatMap]
      exact ⟨r, h, List.mem_cons_self _ _⟩
    · refine ⟨[r1, r], ?_, List.mem_cons_of_mem r1 (List.mem_singleton_self r)⟩
      rw [List.mem_flatMap]
      refine ⟨r1, hr1, List.mem_cons_of_mem _ ?_⟩
      refine List.mem_map.mpr ⟨r, ?_, rfl⟩
      rw [List.mem_filter]
      refine ⟨hr, ?_⟩
      simp only [Bool.not_eq_true', beq_eq_false_iff_ne, ne_eq]
      exact fun hEq => hne hEq.symm

/-- Claim-side predicate, written after the wording of spec section 4.2
step 2: relationship `r` lies on some path of length 1 or 2 through
non-FROM_CHUNK edges starting at node `e`, never crossing a FROM_CHUNK
edge. -/
def specOnPath (g : Graph) (e : Nat) (r : Rel) : Prop :=
  r ∈ g.rels ∧ isFromChunk r = false ∧
    (touches r e = true ∨
      ∃ r1 ∈ g.rels, isFromChunk r1 = false ∧ touches r1 e = true ∧
        touches r (otherEnd r1 e) = true)

/-- Claim-side predicate: `r` is reachable as in spec section 4.2 from
the entities linked to some seed chunk via FROM_CHUNK. -/
def specCollectedRel (g : Graph) (seeds : List Nat) (r : Rel) : Prop :=
  ∃ c ∈ seeds, ∃ fr ∈ g.rels, isFromChunk fr = true ∧ fr.dst = c ∧ specOnPath g fr.src r

/-- Claim-side rendering of the context, written after the wording of
claim C5: the text section joins the raw text of every distinct seed
chunk, not only of the chunks that produced traversal rows. -/
def specContextAllSeeds (g : Graph) (seeds : List Nat) : String :=
  "=== text ===\n" ++ String.intercalate sectionSep ((dedupFirst seeds).map (nodeText g)) ++
  "\n\n=== kg_rels ===\n" ++ String.intercalate sectionSep ((relsCollected g seeds).map (renderRel g))

/-- Concrete store: one chunk holding the text "hello", no entities and
no relationships at all. -/
def g0ex : Graph := { nodes := [{ nid := 0, name := "", text := "hello" }], rels := [] }

/-- Concrete store: chunk 10 ("alpha") is linked from entity 1, which
relates to entity 2; chunk 11 ("beta") has no linked entities. -/
def g1ex : Graph :=
  { nodes := [{ nid := 10, name := "", text := "alpha" },
              { nid := 11, name := "", text := "beta" },
              { nid := 1, name := "E1", text := "" },
              { nid := 2, name := "E2", text := "" }],
    rels := [{ rid := 100, src := 1, dst := 10, relType := "FROM_CHUNK", details := none },
             { rid := 101, src := 1, dst := 2, relType := "RELATED_TO", details := none }] }

/-- Claim C1, counterexample. With the vector-only search raising
"LLM timeout" and the vector-plus-cypher pipeline able to answer
"graph answer", `query_graphrag` returns the same untagged error string
on both sides: the second component is not the labelled successful
answer the claim promises, so the claim is false at this input. -/
theorem c1_compare_single_failure_cex :
    query_graphrag (fun _ _ => Except.error "LLM timeout") (fun _ _ => Except.ok "graph answer")
      "What are common biomarkers for Lupus?" 5 =
      ("Error processing query: LLM timeout", "Error processing query: LLM timeout") ∧
    (query_graphrag (fun _ _ => Except.error "LLM timeout") (fun _ _ => Except.ok "graph answer")
      "What are common biomarkers for Lupus?" 5).2 ≠ vcLabel "graph answer" := by
  constructor
  · rfl
  · decide

/-- Claim C1, amended: if either pipeline of a compare call fails, both
components of the returned pair are the same error message
"Error processing query: ..." with no retriever tag, and the other
pipeline, successful or not, contributes nothing to the result. -/
theorem c1_compare_failure_floods_both_sides
    (vS vcS : String → Nat → Except String String) (q : String) (k : Nat) (e : String)
    (h : vS q k = Except.error e ∨ ∃ a, vS q k = Except.ok a ∧ vcS q k = Except.error e) :
    query_graphrag vS vcS q k = (errorMsg e, errorMsg e) := by
  unfold query_graphrag
  rcases h with h | ⟨a, h1, h2⟩
  · rw [h]
  · rw [h1, h2]

/-- Witness for the amended claim C1 at a concrete input. -/
theorem c1_compare_failure_floods_both_sides_witness :
    query_graphrag (fun _ _ => Except.error "boom") (fun _ _ => Except.ok "fine") "q" 3 =
      (errorMsg "boom", errorMsg "boom") :=
  c1_compare_failure_floods_both_sides
    (fun _ _ => Except.error "boom") (fun _ _ => Except.ok "fine") "q" 3 "boom" (Or.inl rfl)

/-- Claim C2: for a question whose Python `strip()` is empty,
`process_query` returns two identical "Please enter a question."
prompts. The backend standing for `app.query_graphrag`, and through it
every call to the Context Store, Embedding Service and Language Model
Service, is universally quantified and absent from the conclusion, so
no external service can be consulted. -/
theorem c2_blank_query_short_circuits
    (backend : String → Nat → String × String) (query : String) (k : Nat)
    (h : pyStrip query = "") :
    process_query backend query k = ("Please enter a question.", "Please enter a question.") := by
  simp [process_query, h]

/-- Witness for claim C2 on a whitespace-only question. -/
theorem c2_blank_query_short_circuits_witness :
    process_query (fun _ _ => ("other", "answer")) " \t\n " 7 =
      ("Please enter a question.", "Please enter a question.") :=
  c2_blank_query_short_circuits (fun _ _ => ("other", "answer")) " \t\n " 7 (by decide)

/-- Claim C3, counterexample. In the store `g0ex` the single seed chunk
(text "hello") has no linked entities; the MATCH of the retrieval query
then drops the seed row, so the chunk contributes nothing: its raw text
is absent from the text section, refuting the claim that such a chunk
still contributes its own raw text. -/
theorem c3_unlinked_chunk_text_dropped_cex :
    nodeText g0ex 0 = "hello" ∧
    chunksCollected g0ex [0] = [] ∧
    "hello" ∉ (chunksCollected g0ex [0]).map (nodeText g0ex) ∧
    retrieverBContext g0ex [0] = "=== text ===\n\n\n=== kg_rels ===\n" := by
  decide

/-- Claim C3, amended: the context string always opens with the text
section header, but a seed chunk with no entities linked via FROM_CHUNK
produces no traversal rows at all, so it contributes neither its raw
text nor any relationship line. -/
theorem c3_unlinked_chunk_contributes_nothing
    (g : Graph) (seeds : List Nat) (c : Nat)
    (h : ∀ r ∈ g.rels, isFromChunk r = true → r.dst ≠ c) :
    rowsForChunk g c = [] ∧ c ∉ chunksCollected g seeds ∧
    ∃ rest, retrieverBContext g seeds = "=== text ===\n" ++ rest := by
  have hlink : linkRels g c = [] := by
    apply List.eq_nil_iff_forall_not_mem.mpr
    intro r hr
    rw [mem_linkRels] at hr
    exact h r hr.1 hr.2.1 hr.2.2
  have hrfc : rowsForChunk g c = [] := by
    rw [rowsForChunk, hlink]
    rfl
  refine ⟨hrfc, ?_, ?_⟩
  · intro hmem
    rw [chunksCollected, mem_dedupFirst] at hmem
    obtain ⟨p, hp, hq⟩ := List.mem_map.mp hmem
    rw [rows, List.mem_flatMap] at hp
    obtain ⟨c2, hc2, hp2⟩ := hp
    obtain ⟨r, hr, rfl⟩ := List.mem_map.mp hp2
    simp only at hq
    rw [hq, hrfc] at hr
    exact List.not_mem_nil r hr
  · refine ⟨String.intercalate sectionSep ((chunksCollected g seeds).map (nodeText g)) ++
      ("\n\n=== kg_rels ===\n" ++
        String.intercalate sectionSep ((relsCollected g seeds).map (renderRel g))), ?_⟩
    rw [retrieverBContext, String.append_assoc, String.append_assoc]

/-- Witness for the amended claim C3 at the concrete store `g0ex`. -/
theorem c3_unlinked_chunk_contributes_nothing_witness :
    rowsForChunk g0ex 0 = [] ∧ 0 ∉ chunksCollected g0ex [0] ∧
    ∃ rest, retrieverBContext g0ex [0] = "=== text ===\n" ++ rest :=
  c3_unlinked_chunk_contributes_nothing g0ex [0] 0
    (fun r hr => absurd hr (List.not_mem_nil r))

/-- Claim C4: a relationship is collected for the output exactly when it
lies on a path of length 1 or 2 through non-FROM_CHUNK edges starting
at an entity linked via FROM_CHUNK to some seed chunk, and no collected
path crosses a FROM_CHUNK edge. The operational side additionally keeps
the two relationships of a two-hop path distinct (Cypher relationship
uniqueness); the equivalence shows this does not change the collected
set, since a path whose two relationships coincide is subsumed by its
one-hop prefix. -/
theorem c4_collected_rels_characterized (g : Graph) (seeds : List Nat) (r : Rel) :
    r ∈ relsCollected g seeds ↔ specCollectedRel g seeds r := by
  rw [relsCollected, mem_dedupFirst]
  constructor
  · intro h
    obtain ⟨p, hp, hq⟩ := List.mem_map.mp h
    rw [rows, List.mem_flatMap] at hp
    obtain ⟨c, hc, hp2⟩ := hp
    obtain ⟨r2, hr2, rfl⟩ := List.mem_map.mp hp2
    simp only at hq
    rw [hq] at hr2
    rw [rowsForChunk, List.mem_flatMap] at hr2
    obtain ⟨fr, hfr, hrp⟩ := hr2
    rw [mem_linkRels] at hfr
    obtain ⟨hfrg, hfrfc, hfrdst⟩ := hfr
    refine ⟨c, hc, fr, hfrg, hfrfc, hfrdst, ?_⟩
    rcases (mem_pathsFlatten g fr.src r).mp hrp with h1 | ⟨r1, hr1, _, hr⟩
    · rw [mem_nbrRels] at h1
      exact ⟨h1.1, h1.2.1, Or.inl h1.2.2⟩
    · rw [mem_nbrRels] at hr1 hr
      exact ⟨hr.1, hr.2.1, Or.inr ⟨r1, hr1.1, hr1.2.1, hr1.2.2, hr.2.2⟩⟩
  · rintro ⟨c, hc, fr, hfrg, hfrfc, hfrdst, hrg, hrfc, hcase⟩
    refine List.mem_map.mpr ⟨(c, r), ?_, rfl⟩
    rw [rows, List.mem_flatMap]
    refine ⟨c, hc, List.mem_map.mpr ⟨r, ?_, rfl⟩⟩
    rw [rowsForChunk, List.mem_flatMap]
    refine ⟨fr, (mem_linkRels g c fr).mpr ⟨hfrg, hfrfc, hfrdst⟩, ?_⟩
    rw [mem_pathsFlatten]
    rcases hcase with h1 | ⟨r1, hr1g, hr1fc, hr1t, hrt⟩
    · exact Or.inl ((mem_nbrRels g fr.src r).mpr ⟨hrg, hrfc, h1⟩)
    · by_cases hEq : r1 = r
      · subst hEq
        exact Or.inl ((mem_nbrRels g fr.src r1).mpr ⟨hrg, hrfc, hr1t⟩)
      · exact Or.inr ⟨r1, (mem_nbrRels g fr.src r1).mpr ⟨hr1g, hr1fc, hr1t⟩, hEq,
          (mem_nbrRels g (otherEnd r1 fr.src) r).mpr ⟨hrg, hrfc, hrt⟩⟩

/-- Claim C5, counterexample. In the store `g1ex` the seed chunks are 10
("alpha", linked to entity 1) and 11 ("beta", unlinked). The claim says
the text section joins the raw text of each distinct seed chunk, so
"beta" should appear; the code drops chunk 11, and the produced string
differs from the claim-side rendering. -/
theorem c5_context_format_cex :
    retrieverBContext g1ex [10, 11] =
      "=== text ===\nalpha\n\n=== kg_rels ===\nE1 - RELATED_TO() -> E2" ∧
    specContextAllSeeds g1ex [10, 11] =
      "=== text ===\nalpha\n---\nbeta\n\n=== kg_rels ===\nE1 - RELATED_TO() -> E2" ∧
    retrieverBContext g1ex [10, 11] ≠ specContextAllSeeds g1ex [10, 11] := by
  decide

/-- Claim C5, amended: Retriever B produces a single string with two
labeled sections, the text section joining the raw texts of the
distinct collected chunks (the seed chunks that produced at least one
traversal row, not every seed chunk) with the separator, and the
kg_rels section joining each distinct collected relationship rendered
as source name, relation type, parenthesized detail and target name,
where a relationship with no detail renders its detail as the empty
string. -/
theorem c5_context_format (g : Graph) (seeds : List Nat) :
    retrieverBContext g seeds =
      "=== text ===\n" ++
        String.intercalate sectionSep ((chunksCollected g seeds).map (nodeText g)) ++
      "\n\n=== kg_rels ===\n" ++
        String.intercalate sectionSep ((relsCollected g seeds).map (renderRel g)) ∧
    ∀ r : Rel, r.details = none → renderRel g r =
      nodeName g r.src ++ " - " ++ r.relType ++ "(" ++ "" ++ ")" ++ " -> " ++ nodeName g r.dst :=
  ⟨rfl, fun r h => by simp only [renderRel, h, Option.getD_none]⟩

/-- Claim C6: collected chunks and relationships are deduplicated by
identity. The relationship list of the output contains no duplicate,
and it contains a relationship exactly when some traversal row reached
it, so a relationship reached from several seed chunks appears exactly
once, not once per seed chunk; likewise no chunk is listed twice. -/
theorem c6_collected_rels_deduplicated (g : Graph) (seeds : List Nat) :
    (relsCollected g seeds).Nodup ∧
    (chunksCollected g seeds).Nodup ∧
    ∀ r : Rel, r ∈ relsCollected g seeds ↔ r ∈ (rows g seeds).map Prod.snd :=
  ⟨nodup_dedupFirst ((rows g seeds).map Prod.snd),
   nodup_dedupFirst ((rows g seeds).map Prod.fst),
   fun r => mem_dedupFirst ((rows g seeds).map Prod.snd) r⟩

/-- Claim C7: within one compare call both pipelines are consulted with
the same question text and the same top_k, so the result depends only
on the value each search oracle takes at exactly that (question, k)
pair: replacing the oracles by any others agreeing there leaves the
returned pair unchanged. -/
theorem c7_compare_uses_same_query_and_k
    (vS vS2 vcS vcS2 : String → Nat → Except String String) (q : String) (k : Nat)
    (h1 : vS q k = vS2 q k) (h2 : vcS q k = vcS2 q k) :
    query_graphrag vS vcS q k = query_graphrag vS2 vcS2 q k := by
  unfold query_graphrag
  rw [h1, h2]

/-- Witness for claim C7: oracles that differ everywhere except at the
asked (question, k) give the same compare result. -/
theorem c7_compare_uses_same_query_and_k_witness :
    query_graphrag (fun s _ => Except.ok s) (fun _ _ => Except.ok "b") "q" 5 =
      query_graphrag (fun s n => if n = 5 then Except.ok s else Except.error "no")
        (fun _ n => if n = 5 then Except.ok "b" else Except.error "no") "q" 5 :=
  c7_compare_uses_same_query_and_k
    (fun s _ => Except.ok s) (fun s n => if n = 5 then Except.ok s else Except.error "no")
    (fun _ _ => Except.ok "b") (fun _ n => if n = 5 then Except.ok "b" else Except.error "no")
    "q" 5 rfl rfl

/-- Claim C8: when any of the three required credentials is missing from
the environment, construction stops in `setup_neo4j_connection` with
the ValueError message before the driver is built: `appInit` yields an
error carrying no `Neo4jConn`, and no later setup step runs. -/
theorem c8_missing_credentials_abort_startup
    (env : String → Option String) (createIndexResult : Except String Unit)
    (h : env "NEO4J_URI" = none ∨ env "NEO4J_USERNAME" = none ∨ env "NEO4J_PASSWORD" = none) :
    appInit env createIndexResult =
      Except.error "Neo4j credentials not found in environment variables" := by
  rcases h with h | h | h <;>
    simp [appInit, setup_neo4j_connection, pyTruthy, h]

/-- Witness for claim C8 on an empty environment. -/
theorem c8_missing_credentials_abort_startup_witness :
    appInit (fun _ => none) (Except.ok ()) =
      Except.error "Neo4j credentials not found in environment variables" :=
  c8_missing_credentials_abort_startup (fun _ => none) (Except.ok ()) (Or.inl rfl)

/-- Claim C9: with credentials present, a failing `create_vector_index`
call is swallowed by the try block of `setup_models`: construction
completes with a normally configured application, the failure surviving
only as the printed warning text. -/
theorem c9_index_creation_failure_swallowed
    (env : String → Option String) (e : String)
    (h1 : pyTruthy (env "NEO4J_URI") = true)
    (h2 : pyTruthy (env "NEO4J_USERNAME") = true)
    (h3 : pyTruthy (env "NEO4J_PASSWORD") = true) :
    ∃ app, appInit env (Except.error e) = Except.ok app ∧
      app.models.llmModel = "gpt-4.1-mini" ∧
      app.models.embedderReady = true ∧
      app.models.indexWarning =
        some ("Vector index creation error (may already exist): " ++ e) ∧
      app.models = setup_models (Except.error e) ∧
      appInit env (Except.error e) =
        (appInit env (Except.ok ())).map (fun a => { a with models := setup_models (Except.error e) }) := by
  refine ⟨{ conn := { uri := (env "NEO4J_URI").getD "",
                      username := (env "NEO4J_USERNAME").getD "",
                      password := (env "NEO4J_PASSWORD").getD "",
                      database := env "NEO4J_DATABASE" },
            models := setup_models (Except.error e) }, ?_, rfl, rfl, rfl, rfl, ?_⟩ <;>
    simp [appInit, setup_neo4j_connection, h1, h2, h3, setup_models, Except.map]

/-- Witness for claim C9 at a concrete environment. -/
theorem c9_index_creation_failure_swallowed_witness :
    ∃ app, appInit (fun _ => some "x") (Except.error "index exists") = Except.ok app ∧
      app.models.llmModel = "gpt-4.1-mini" ∧
      app.models.embedderReady = true ∧
      app.models.indexWarning =
        some ("Vector index creation error (may already exist): " ++ "index exists") ∧
      app.models = setup_models (Except.error "index exists") ∧
      appInit (fun _ => some "x") (Except.error "index exists") =
        (appInit (fun _ => some "x") (Except.ok ())).map
          (fun a => { a with models := setup_models (Except.error "index exists") }) :=
  c9_index_creation_failure_swallowed (fun _ => some "x") "index exists" rfl rfl rfl

/-- Claim C10: the per-query entry point is total at its boundary. For
every pair of pipeline outcomes, raised exceptions included, the
compare call returns a pair of strings: either both labelled answers
when both pipelines succeed, or a pair of identical error strings
converting the first internal exception. No exception escapes, which
the return type `String × String` of the embedding makes intrinsic. -/
theorem c10_query_graphrag_total
    (vS vcS : String → Nat → Except String String) (q : String) (k : Nat) :
    (∃ a b, vS q k = Except.ok a ∧ vcS q k = Except.ok b ∧
      query_graphrag vS vcS q k = (vectorLabel a, vcLabel b)) ∨
    (∃ e, query_graphrag vS vcS q k = (errorMsg e, errorMsg e)) := by
  cases hv : vS q k with
  | error e =>
    exact Or.inr ⟨e, by simp [query_graphrag, hv]⟩
  | ok a =>
    cases hvc : vcS q k with
    | error e =>
      exact Or.inr ⟨e, by simp [query_graphrag, hv, hvc]⟩
    | ok b =>
      exact Or.inl ⟨a, b, rfl, rfl, by simp [query_graphrag, hv, hvc]⟩

end GraphRAG
